import Mathlib

/-!
Verification of the orbital-playground N-body physics engine.

The definitions below are a shallow embedding of the engine's core
(`src/js/core/Vector2.js`, `src/js/core/Body.js`, `src/js/core/Simulation.js`,
with constants from `src/js/config.js`).  JavaScript numbers are modelled as
real numbers; `Math.sqrt` is `Real.sqrt` and `Math.cbrt` (used only on
nonnegative arguments by the engine) is `Real.rpow · (1/3)`.  A thrown
constructor exception is modelled with `Option` (`none` = the call throws and
the caller's state is left untouched).
-/

namespace Orbital

noncomputable section

/-- 2D vector, from `Vector2.js`. -/
@[ext]
structure Vec where
  x : ℝ
  y : ℝ

/-- `Vector2.add`. -/
def Vec.add (v w : Vec) : Vec := ⟨v.x + w.x, v.y + w.y⟩

/-- `Vector2.sub`. -/
def Vec.sub (v w : Vec) : Vec := ⟨v.x - w.x, v.y - w.y⟩

/-- `Vector2.scale`. -/
def Vec.scale (v : Vec) (s : ℝ) : Vec := ⟨v.x * s, v.y * s⟩

/-- `Vector2.zero`. -/
def Vec.zero : Vec := ⟨0, 0⟩

/-- `Vector2.distSq` (static): `dx*dx + dy*dy`. -/
def Vec.distSq (a b : Vec) : ℝ := (b.x - a.x) * (b.x - a.x) + (b.y - a.y) * (b.y - a.y)

/-- `Vector2.dist` (static): `Math.sqrt(distSq)`. -/
def Vec.dist (a b : Vec) : ℝ := Real.sqrt (Vec.distSq a b)

/-- One palette entry from `config.js` (`color`, `glow`, `trail`). -/
structure ColorSpec where
  color : String
  glow : String
  trail : String

/-- `PALETTES.star` from `config.js`. -/
def starPalette : List ColorSpec :=
  [⟨"#ffb347", "rgba(255,179,71,0.4)", "rgba(255,179,71,ALPHA)"⟩,
   ⟨"#ffe066", "rgba(255,224,102,0.4)", "rgba(255,224,102,ALPHA)"⟩,
   ⟨"#ff6b6b", "rgba(255,107,107,0.4)", "rgba(255,107,107,ALPHA)"⟩,
   ⟨"#c4b5fd", "rgba(196,181,253,0.4)", "rgba(196,181,253,ALPHA)"⟩]

/-- `PALETTES.planet` from `config.js`. -/
def planetPalette : List ColorSpec :=
  [⟨"#4e8cff", "rgba(78,140,255,0.35)", "rgba(78,140,255,ALPHA)"⟩,
   ⟨"#9b6dff", "rgba(155,109,255,0.35)", "rgba(155,109,255,ALPHA)"⟩,
   ⟨"#42d4ff", "rgba(66,212,255,0.35)", "rgba(66,212,255,ALPHA)"⟩,
   ⟨"#ff5ea0", "rgba(255,94,160,0.35)", "rgba(255,94,160,ALPHA)"⟩,
   ⟨"#50e89e", "rgba(80,232,158,0.35)", "rgba(80,232,158,ALPHA)"⟩,
   ⟨"#ff8c42", "rgba(255,140,66,0.35)", "rgba(255,140,66,ALPHA)"⟩]

/-- `PALETTES.moon` from `config.js`. -/
def moonPalette : List ColorSpec :=
  [⟨"#a0a8c0", "rgba(160,168,192,0.3)", "rgba(160,168,192,ALPHA)"⟩,
   ⟨"#d4c5a9", "rgba(212,197,169,0.3)", "rgba(212,197,169,ALPHA)"⟩]

/-- `BODY_TYPES[type]` from `config.js`: `(mass, radius)` preset, or `none`
(JavaScript `undefined`) for an unknown type. -/
def bodyPreset (t : String) : Option (ℝ × ℝ) :=
  if t = "star" then some (3000, 22)
  else if t = "planet" then some (400, 10)
  else if t = "moon" then some (30, 5)
  else none

/-- `PALETTES[type]` from `config.js`, or `none` for an unknown type. -/
def paletteOf (t : String) : Option (List ColorSpec) :=
  if t = "star" then some starPalette
  else if t = "planet" then some planetPalette
  else if t = "moon" then some moonPalette
  else none

/-- `RENDERING.MAX_TRAIL_LENGTH` from `config.js`. -/
def MAX_TRAIL_LENGTH : ℕ := 200

/-- `PHYSICS.MAX_FRAME_DT` from `config.js`. -/
def MAX_FRAME_DT : ℝ := 0.05

/-- A celestial body, from `Body.js` (over real-valued scalars). -/
@[ext]
structure Body where
  type : String
  mass : ℝ
  radius : ℝ
  color : String
  glow : String
  trailColor : String
  pos : Vec
  vel : Vec
  acc : Vec
  trail : List Vec
  maxTrail : ℕ
  alive : Bool
  age : ℕ

instance : Inhabited Body :=
  ⟨⟨"", 0, 0, "", "", "", Vec.zero, Vec.zero, Vec.zero, [], 0, true, 0⟩⟩

instance : Inhabited ColorSpec := ⟨⟨"", "", ""⟩⟩

/-- The `Body` constructor.  `idx` models the module-global per-type palette
counter `_paletteIndex[type]` at call time.  A `none` result models the
`TypeError` thrown when `type` is not a known preset (indexing into the
`undefined` palette / reading `preset.mass`); the exception propagates before
any state is touched. -/
def mkBody (t : String) (position velocity : Vec) (idx : ℕ) : Option Body :=
  match bodyPreset t, paletteOf t with
  | some preset, some pal =>
      let colors := pal.getD (idx % pal.length) default
      some { type := t, mass := preset.1, radius := preset.2,
             color := colors.color, glow := colors.glow, trailColor := colors.trail,
             pos := position, vel := velocity, acc := Vec.zero,
             trail := [], maxTrail := MAX_TRAIL_LENGTH, alive := true, age := 0 }
  | _, _ => none

/-- `Body.recordTrail`: push the current position, then shift the oldest entry
out if the trail exceeds `maxTrail`. -/
def Body.recordTrail (b : Body) : Body :=
  let t := b.trail ++ [b.pos]
  { b with trail := if b.maxTrail < t.length then t.tail else t }

/-- `Math.cbrt`, modelled on the engine's nonnegative use range. -/
def cbrt (x : ℝ) : ℝ := Real.rpow x (1 / 3)

/-- `Body.absorb(other)`: the pair `(this-after, other-after)`.  Follows the
source statement order: momentum-weighted velocity and mass-weighted position
using the pre-merge masses, radius growth by `cbrt(totalMass / this.mass)`,
then `mass = totalMass`, conditional star promotion, and `other.alive = false`. -/
def Body.absorb (b o : Body) : Body × Body :=
  let totalMass := b.mass + o.mass
  let vel' := (b.vel.scale (b.mass / totalMass)).add (o.vel.scale (o.mass / totalMass))
  let pos' := (b.pos.scale (b.mass / totalMass)).add (o.pos.scale (o.mass / totalMass))
  let radius' := b.radius * cbrt (totalMass / b.mass)
  let b1 : Body := { b with vel := vel', pos := pos', radius := radius', mass := totalMass }
  let b2 : Body :=
    if b1.type ≠ "star" ∧ b1.mass > 2000 then
      { b1 with type := "star",
                color := (starPalette.getD 0 default).color,
                glow := (starPalette.getD 0 default).glow,
                trailColor := (starPalette.getD 0 default).trail }
    else b1
  (b2, { o with alive := false })

/-- The simulation engine state, from `Simulation.js`. -/
structure Simulation where
  bodies : List Body
  G : ℝ
  softening : ℝ
  substeps : ℕ
  elapsed : ℝ
  paused : Bool

/-- A freshly constructed engine with the `config.js` defaults
(`G = 800`, `SOFTENING = 8`, `SUBSTEPS = 6`). -/
def Simulation.init : Simulation :=
  { bodies := [], G := 800, softening := 8, substeps := 6, elapsed := 0, paused := false }

/-- `Simulation.addBody`: construct a `Body` and push it; `none` models the
constructor throwing on an unknown type, in which case the caller's engine
state is unchanged (the `push` is never reached). -/
def Simulation.addBody (sim : Simulation) (t : String) (position velocity : Vec)
    (idx : ℕ) : Option (Simulation × Body) :=
  (mkBody t position velocity idx).map fun b =>
    ({ sim with bodies := sim.bodies ++ [b] }, b)

/-- The body of the inner `j` pair loop of `_computeAccelerations`: one
accumulation for the pair `(i, j)`. -/
def accPairUpdate (G softSq : ℝ) (bs : List Body) (i j : ℕ) : List Body :=
  let a := bs.getD i default
  let b := bs.getD j default
  let dx := b.pos.x - a.pos.x
  let dy := b.pos.y - a.pos.y
  let distSq := dx * dx + dy * dy + softSq
  let dist := Real.sqrt distSq
  let force := G * a.mass * b.mass / distSq
  let fx := force * dx / dist
  let fy := force * dy / dist
  (bs.set i { a with acc := ⟨a.acc.x + fx / a.mass, a.acc.y + fy / a.mass⟩ }).set j
    { b with acc := ⟨b.acc.x - fx / b.mass, b.acc.y - fy / b.mass⟩ }

/-- `Simulation._computeAccelerations`: zero all accelerations, then accumulate
over all index pairs `i < j`. -/
def computeAccelerations (G soft : ℝ) (bs : List Body) : List Body :=
  let bs0 := bs.map fun b => { b with acc := Vec.zero }
  let softSq := soft * soft
  (List.range bs0.length).foldl
    (fun acc i =>
      (List.range' (i + 1) (acc.length - (i + 1))).foldl
        (fun acc2 j => accPairUpdate G softSq acc2 i j) acc)
    bs0

/-- `Simulation._integrateVerlet`: half-kick, drift, recompute accelerations,
half-kick — as written in the source. -/
def integrateVerlet (G soft dt : ℝ) (bs : List Body) : List Body :=
  let bs1 := bs.map fun b => { b with vel := b.vel.add (b.acc.scale (0.5 * dt)) }
  let bs2 := bs1.map fun b => { b with pos := b.pos.add (b.vel.scale dt) }
  let bs3 := computeAccelerations G soft bs2
  bs3.map fun b => { b with vel := b.vel.add (b.acc.scale (0.5 * dt)) }

/-- The body of the inner `j` loop of `_resolveCollisions`: skip a dead `j`,
otherwise merge the pair `(i, j)` when the centers are closer than
`0.6 * (radius_i + radius_j)`, the heavier body (ties to `i`) absorbing the
other.  Note the source rechecks only `bodies[j].alive` here — `bodies[i]`'s
liveness was checked once, before the inner loop started. -/
def checkPair (bs : List Body) (i j : ℕ) : List Body :=
  if (bs.getD j default).alive = false then bs
  else
    let a := bs.getD i default
    let b := bs.getD j default
    let dist := Vec.dist a.pos b.pos
    if dist < (a.radius + b.radius) * 0.6 then
      if b.mass ≤ a.mass then
        let p := Body.absorb a b
        (bs.set i p.1).set j p.2
      else
        let p := Body.absorb b a
        (bs.set j p.1).set i p.2
    else bs

/-- One outer-loop iteration of `_resolveCollisions`: if `bodies[i]` is dead
here, skip; otherwise run the inner loop for `j = i+1 .. n-1`. -/
def outerScan (bs : List Body) (i : ℕ) : List Body :=
  if (bs.getD i default).alive = false then bs
  else (List.range' (i + 1) (bs.length - (i + 1))).foldl (fun acc j => checkPair acc i j) bs

/-- `Simulation._resolveCollisions`: the full pair scan followed by filtering
out dead bodies. -/
def resolveCollisions (bs : List Body) : List Body :=
  ((List.range bs.length).foldl outerScan bs).filter fun b => b.alive

/-- `Simulation.step(frameDt, timeScale)`. -/
def Simulation.step (sim : Simulation) (frameDt timeScale : ℝ) : Simulation :=
  if sim.paused then sim
  else
    let dt := (min frameDt MAX_FRAME_DT) * timeScale
    let subDt := dt / (sim.substeps : ℝ)
    let bs1 := (integrateVerlet sim.G sim.softening subDt)^[sim.substeps] sim.bodies
    let bs2 := bs1.map fun b => { b.recordTrail with age := b.age + 1 }
    let bs3 := resolveCollisions bs2
    { sim with bodies := bs3, elapsed := sim.elapsed + dt }

/-! Spec-side phrasing of one Velocity Verlet sub-interval (§4.2.1 of the
spec), for the refinement claim C1: the four phases in the spec's stated
order, each phase its own named function. -/

/-- Spec §4.2.1 step 1/4: every `velocity += 0.5 * acceleration * h`. -/
def halfKickAll (h : ℝ) (bs : List Body) : List Body :=
  bs.map fun b => { b with vel := b.vel.add (b.acc.scale (0.5 * h)) }

/-- Spec §4.2.1 step 2: every `position += velocity * h`. -/
def driftAll (h : ℝ) (bs : List Body) : List Body :=
  bs.map fun b => { b with pos := b.pos.add (b.vel.scale h) }

/-- Spec §4.2.1: half-kick, drift, recompute all pairwise accelerations from
the new positions, then half-kick again with the new accelerations. -/
def specVerletSub (G soft h : ℝ) (bs : List Body) : List Body :=
  halfKickAll h (computeAccelerations G soft (driftAll h (halfKickAll h bs)))

/-! Helper lemmas. -/

/-- The source's Verlet sub-step is exactly the spec's four phases in the
spec's order. -/
lemma integrateVerlet_eq_spec (G soft h : ℝ) :
    integrateVerlet G soft h = specVerletSub G soft h := by
  funext bs
  rfl

lemma sqrt_eval {a c : ℝ} (hc : 0 ≤ c) (h : a = c * c) : Real.sqrt a = c := by
  rw [h, Real.sqrt_mul_self hc]

/-! Claim theorems. -/

/-- C5: whenever `paused` is true, `step` is a complete no-op — the engine
state (bodies, with positions, velocities, accelerations, trails, ages, and
the body list itself, and the elapsed time) is returned unchanged. -/
theorem c5_pause_noop (sim : Simulation) (frameDt timeScale : ℝ)
    (h : sim.paused = true) : sim.step frameDt timeScale = sim := by
  simp [Simulation.step, h]

/-- A concrete paused engine. -/
def pausedSim : Simulation := { Simulation.init with paused := true }

theorem c5_pause_noop_witness :
    pausedSim.paused = true ∧ pausedSim.step (16 / 1000) 2 = pausedSim :=
  ⟨rfl, c5_pause_noop pausedSim (16 / 1000) 2 rfl⟩

/-- C3: immediately after a merge, the surviving body's mass is exactly the
sum of the two pre-merge masses. -/
theorem c3_mass_conservation (big small : Body) :
    (big.absorb small).1.mass = big.mass + small.mass := by
  unfold Body.absorb
  dsimp only
  split <;> rfl

/-- C7: the surviving body's velocity after a merge is, component-wise, the
momentum-weighted average `(v_big * m_big + v_small * m_small) / (m_big + m_small)`
of the two pre-merge velocities. -/
theorem c7_momentum_velocity (big small : Body) :
    (big.absorb small).1.vel =
      ⟨(big.vel.x * big.mass + small.vel.x * small.mass) / (big.mass + small.mass),
       (big.vel.y * big.mass + small.vel.y * small.mass) / (big.mass + small.mass)⟩ := by
  unfold Body.absorb
  dsimp only
  split <;>
    simp [Vec.add, Vec.scale, ← mul_div_assoc, div_add_div_same]

/-- C4 (amended): for every unpaused `step(dt, scale)`, the elapsed time
afterwards equals `elapsed_before + min(dt, MAX_FRAME_DT) * scale` for any
inputs; and the elapsed time stays nonnegative provided the prior elapsed
time, `dt`, and `scale` are all nonnegative.  (For negative inputs the clock
can go negative — see the counterexample.) -/
theorem c4_amended (sim : Simulation) (frameDt timeScale : ℝ)
    (h : sim.paused = false) :
    (sim.step frameDt timeScale).elapsed
        = sim.elapsed + (min frameDt MAX_FRAME_DT) * timeScale
    ∧ (0 ≤ sim.elapsed → 0 ≤ frameDt → 0 ≤ timeScale →
        0 ≤ (sim.step frameDt timeScale).elapsed) := by
  constructor
  · simp [Simulation.step, h]
  · intro he hf ht
    simp only [Simulation.step, h, Bool.false_eq_true, if_false]
    exact add_nonneg he
      (mul_nonneg (le_min hf (by norm_num [MAX_FRAME_DT])) ht)

theorem c4_amended_witness :
    Simulation.init.paused = false ∧
      ((Simulation.init.step (16 / 1000) 2).elapsed
          = Simulation.init.elapsed + (min (16 / 1000) MAX_FRAME_DT) * 2
        ∧ (0 ≤ Simulation.init.elapsed → 0 ≤ (16 / 1000 : ℝ) → 0 ≤ (2 : ℝ) →
            0 ≤ (Simulation.init.step (16 / 1000) 2).elapsed)) :=
  ⟨rfl, c4_amended Simulation.init (16 / 1000) 2 rfl⟩

/-- C4 (counterexample): an unpaused `step(-1, 1)` on a fresh engine drives
`elapsed` to `-1 < 0`, refuting "elapsed is never negative, for any input dt
and scale". -/
theorem c4_counterexample :
    Simulation.init.paused = false ∧ (Simulation.init.step (-1) 1).elapsed < 0 := by
  refine ⟨rfl, ?_⟩
  simp only [Simulation.step, Simulation.init, Bool.false_eq_true, if_false]
  rw [min_eq_left (by norm_num [MAX_FRAME_DT])]
  norm_num

/-- C9: `addBody` with a type outside `{star, planet, moon}` fails fast — the
`Body` constructor raises (modelled by `none`) before the body is pushed, so
no defaulted body is created and the engine's body list is unchanged. -/
theorem c9_unknown_type_fails (sim : Simulation) (t : String) (p v : Vec) (idx : ℕ)
    (h1 : t ≠ "star") (h2 : t ≠ "planet") (h3 : t ≠ "moon") :
    mkBody t p v idx = none ∧ sim.addBody t p v idx = none := by
  have hb : bodyPreset t = none := by simp [bodyPreset, h1, h2, h3]
  have hm : mkBody t p v idx = none := by
    unfold mkBody
    rw [hb]
  exact ⟨hm, by simp [Simulation.addBody, hm]⟩

theorem c9_unknown_type_fails_witness :
    ("comet" ≠ "star") ∧ ("comet" ≠ "planet") ∧ ("comet" ≠ "moon") ∧
      mkBody "comet" ⟨1, 2⟩ Vec.zero 0 = none ∧
      Simulation.init.addBody "comet" ⟨1, 2⟩ Vec.zero 0 = none :=
  ⟨by decide, by decide, by decide,
    (c9_unknown_type_fails Simulation.init "comet" ⟨1, 2⟩ Vec.zero 0
      (by decide) (by decide) (by decide)).1,
    (c9_unknown_type_fails Simulation.init "comet" ⟨1, 2⟩ Vec.zero 0
      (by decide) (by decide) (by decide)).2⟩

/-- C10: a merge modifies only the survivor's velocity, position, radius and
mass — plus its type and color fields exactly when the star-promotion
threshold is exceeded — and the absorbed body's alive flag.  The survivor's
trail, age, alive flag, acceleration and trail capacity are unchanged, and
the absorbed body is returned with every field except `alive` unchanged. -/
theorem c10_merge_frame (big small : Body) :
    (big.absorb small).2 = { small with alive := false }
    ∧ (big.absorb small).1.trail = big.trail
    ∧ (big.absorb small).1.age = big.age
    ∧ (big.absorb small).1.alive = big.alive
    ∧ (big.absorb small).1.acc = big.acc
    ∧ (big.absorb small).1.maxTrail = big.maxTrail
    ∧ (big.absorb small).1.type
        = (if big.type ≠ "star" ∧ big.mass + small.mass > 2000
           then "star" else big.type)
    ∧ (big.absorb small).1.color
        = (if big.type ≠ "star" ∧ big.mass + small.mass > 2000
           then (starPalette.getD 0 default).color else big.color)
    ∧ (big.absorb small).1.glow
        = (if big.type ≠ "star" ∧ big.mass + small.mass > 2000
           then (starPalette.getD 0 default).glow else big.glow)
    ∧ (big.absorb small).1.trailColor
        = (if big.type ≠ "star" ∧ big.mass + small.mass > 2000
           then (starPalette.getD 0 default).trail else big.trailColor) := by
  unfold Body.absorb
  dsimp only
  by_cases h : big.type ≠ "star" ∧ big.mass + small.mass > 2000 <;>
    simp [h]

/-- C1: an unpaused `step(frameDelta, timeScale)` subdivides
`dt = min(frameDelta, MAX_FRAME_DT) * timeScale` into `substeps` equal
sub-intervals and runs, per sub-interval, exactly the spec's Velocity Verlet
phase order — half-kick, drift, recompute all pairwise accelerations from the
new positions, half-kick with the new accelerations (`specVerletSub`) — before
trails/ages, the collision pass, and the clock advance. -/
theorem c1_verlet_substep_order (sim : Simulation) (frameDt timeScale : ℝ)
    (h : sim.paused = false) :
    sim.step frameDt timeScale =
      { sim with
        bodies := resolveCollisions
          (((specVerletSub sim.G sim.softening
              ((min frameDt MAX_FRAME_DT) * timeScale / (sim.substeps : ℝ)))^[sim.substeps]
              sim.bodies).map fun b => { b.recordTrail with age := b.age + 1 }),
        elapsed := sim.elapsed + (min frameDt MAX_FRAME_DT) * timeScale } := by
  simp only [Simulation.step, h, Bool.false_eq_true, if_false,
    integrateVerlet_eq_spec]

theorem c1_verlet_substep_order_witness :
    Simulation.init.paused = false ∧
      Simulation.init.step (16 / 1000) 1 =
        { Simulation.init with
          bodies := resolveCollisions
            (((specVerletSub Simulation.init.G Simulation.init.softening
                ((min (16 / 1000) MAX_FRAME_DT) * 1 / (Simulation.init.substeps : ℝ)))^[Simulation.init.substeps]
                Simulation.init.bodies).map fun b => { b.recordTrail with age := b.age + 1 }),
          elapsed := Simulation.init.elapsed + (min (16 / 1000) MAX_FRAME_DT) * 1 } :=
  ⟨rfl, c1_verlet_substep_order Simulation.init (16 / 1000) 1 rfl⟩

/-- C6: for an examined pair of distinct live bodies `a` (index `i`) and `b`
(index `j`), a merge occurs if and only if the center distance is strictly
below `0.6 * (a.radius + b.radius)`; when it occurs the body of greater mass
absorbs the other, a mass tie going to the first-indexed body `a`. -/
theorem c6_merge_condition (bs : List Body) (i j : ℕ) (a b : Body)
    (ha : bs[i]? = some a) (hb : bs[j]? = some b)
    (haliveA : a.alive = true) (haliveB : b.alive = true) (_hij : i ≠ j) :
    (checkPair bs i j = bs ↔ ¬ Vec.dist a.pos b.pos < (a.radius + b.radius) * 0.6)
    ∧ (Vec.dist a.pos b.pos < (a.radius + b.radius) * 0.6 →
        (b.mass ≤ a.mass →
          checkPair bs i j = (bs.set i (a.absorb b).1).set j (a.absorb b).2)
        ∧ (a.mass < b.mass →
          checkPair bs i j = (bs.set j (b.absorb a).1).set i (b.absorb a).2)) := by
  have hjlen : j < bs.length := (List.getElem?_eq_some.mp hb).1
  have hilen : i < bs.length := (List.getElem?_eq_some.mp ha).1
  have hgj : bs.getD j default = b := by simp [List.getD_eq_getElem?_getD, hb]
  have hgi : bs.getD i default = a := by simp [List.getD_eq_getElem?_getD, ha]
  have hguard : ¬ ((bs.getD j default).alive = false) := by rw [hgj, haliveB]; simp
  have hcompute : checkPair bs i j =
      (if Vec.dist a.pos b.pos < (a.radius + b.radius) * 0.6 then
        (if b.mass ≤ a.mass then (bs.set i (a.absorb b).1).set j (a.absorb b).2
         else (bs.set j (b.absorb a).1).set i (b.absorb a).2)
       else bs) := by
    simp only [checkPair, hgj, hgi, haliveB]
    rw [if_neg (by simp : ¬(true = false))]
  have habsb : ((a.absorb b).2).alive = false := rfl
  have habsa : ((b.absorb a).2).alive = false := rfl
  have hneq1 : ∀ X : Body, (bs.set i X).set j ((a.absorb b).2) ≠ bs := by
    intro X heq
    have h1 : ((bs.set i X).set j ((a.absorb b).2))[j]? = some ((a.absorb b).2) :=
      List.getElem?_set_self (by simpa using hjlen)
    rw [heq, hb] at h1
    have h2 : b = (a.absorb b).2 := by injection h1
    rw [← h2, haliveB] at habsb
    cases habsb
  have hneq2 : ∀ Y : Body, (bs.set j Y).set i ((b.absorb a).2) ≠ bs := by
    intro Y heq
    have h1 : ((bs.set j Y).set i ((b.absorb a).2))[i]? = some ((b.absorb a).2) :=
      List.getElem?_set_self (by simpa using hilen)
    rw [heq, ha] at h1
    have h2 : a = (b.absorb a).2 := by injection h1
    rw [← h2, haliveA] at habsa
    cases habsa
  constructor
  · rw [hcompute]
    by_cases hC : Vec.dist a.pos b.pos < (a.radius + b.radius) * 0.6
    · rw [if_pos hC]
      simp only [hC, not_true, iff_false]
      by_cases hm : b.mass ≤ a.mass
      · rw [if_pos hm]; exact hneq1 _
      · rw [if_neg hm]; exact hneq2 _
    · rw [if_neg hC]
      simp [hC]
  · intro hC
    rw [hcompute, if_pos hC]
    constructor
    · intro hm; rw [if_pos hm]
    · intro hm; rw [if_neg (not_le.mpr hm)]

/-- A minimal live test body of the given type, mass, radius and position. -/
def mkTest (t : String) (m r px py : ℝ) : Body :=
  { type := t, mass := m, radius := r, color := "", glow := "", trailColor := "",
    pos := ⟨px, py⟩, vel := Vec.zero, acc := Vec.zero, trail := [],
    maxTrail := 200, alive := true, age := 0 }

theorem c6_merge_condition_witness :
    ([mkTest "planet" 400 10 0 0, mkTest "planet" 400 10 1 0][0]?
        = some (mkTest "planet" 400 10 0 0))
    ∧ ([mkTest "planet" 400 10 0 0, mkTest "planet" 400 10 1 0][1]?
        = some (mkTest "planet" 400 10 1 0))
    ∧ (mkTest "planet" 400 10 0 0).alive = true
    ∧ (mkTest "planet" 400 10 1 0).alive = true
    ∧ (0 : ℕ) ≠ 1
    ∧ ((checkPair [mkTest "planet" 400 10 0 0, mkTest "planet" 400 10 1 0] 0 1
          = [mkTest "planet" 400 10 0 0, mkTest "planet" 400 10 1 0]
        ↔ ¬ Vec.dist (mkTest "planet" 400 10 0 0).pos (mkTest "planet" 400 10 1 0).pos
            < ((mkTest "planet" 400 10 0 0).radius + (mkTest "planet" 400 10 1 0).radius) * 0.6)
      ∧ (Vec.dist (mkTest "planet" 400 10 0 0).pos (mkTest "planet" 400 10 1 0).pos
            < ((mkTest "planet" 400 10 0 0).radius + (mkTest "planet" 400 10 1 0).radius) * 0.6 →
          ((mkTest "planet" 400 10 1 0).mass ≤ (mkTest "planet" 400 10 0 0).mass →
            checkPair [mkTest "planet" 400 10 0 0, mkTest "planet" 400 10 1 0] 0 1
              = ([mkTest "planet" 400 10 0 0, mkTest "planet" 400 10 1 0].set 0
                  ((mkTest "planet" 400 10 0 0).absorb (mkTest "planet" 400 10 1 0)).1).set 1
                  ((mkTest "planet" 400 10 0 0).absorb (mkTest "planet" 400 10 1 0)).2)
          ∧ ((mkTest "planet" 400 10 0 0).mass < (mkTest "planet" 400 10 1 0).mass →
            checkPair [mkTest "planet" 400 10 0 0, mkTest "planet" 400 10 1 0] 0 1
              = ([mkTest "planet" 400 10 0 0, mkTest "planet" 400 10 1 0].set 1
                  ((mkTest "planet" 400 10 1 0).absorb (mkTest "planet" 400 10 0 0)).1).set 0
                  ((mkTest "planet" 400 10 1 0).absorb (mkTest "planet" 400 10 0 0)).2))) :=
  ⟨rfl, rfl, rfl, rfl, by decide,
    c6_merge_condition [mkTest "planet" 400 10 0 0, mkTest "planet" 400 10 1 0]
      0 1 (mkTest "planet" 400 10 0 0) (mkTest "planet" 400 10 1 0)
      rfl rfl rfl rfl (by decide)⟩

/-! C2 scenario: a moon at the origin is absorbed by a star (pair (0,1)), yet
the pass goes on to examine pair (0,2) — the dead-`i` check only happens when
the outer iteration starts — so the dead moon is absorbed a second time by a
planet, double-counting its mass. -/

/-- `cbrt` of a number that is at least one is at most that number. -/
lemma cbrt_le_self {x : ℝ} (hx : 1 ≤ x) : cbrt x ≤ x := by
  have h := Real.rpow_le_rpow_of_exponent_le hx (show (1 : ℝ) / 3 ≤ 1 by norm_num)
  rwa [Real.rpow_one] at h

/-- The moon after being marked dead by the first merge. -/
def moonDead : Body := { mkTest "moon" 30 5 0 0 with alive := false }

/-- The star after absorbing the moon in pair (0,1). -/
def starAbsorbed : Body :=
  { mkTest "star" 3030 (22 * cbrt (3030 / 3000)) (-1600 / 101) 0 with trail := [] }

/-- The planet after (wrongly) absorbing the already-dead moon in pair (0,2). -/
def planetAbsorbed : Body :=
  { mkTest "planet" 430 (10 * cbrt (430 / 400)) (320 / 43) 0 with trail := [] }

lemma c2_e1 : checkPair [mkTest "moon" 30 5 0 0, mkTest "star" 3000 22 (-16) 0,
      mkTest "planet" 400 10 8 0] 0 1
    = [moonDead, starAbsorbed, mkTest "planet" 400 10 8 0] := by
  have hd : Vec.dist (⟨0, 0⟩ : Vec) ⟨-16, 0⟩ = 16 :=
    sqrt_eval (by norm_num) (by unfold Vec.distSq; norm_num)
  simp only [checkPair, mkTest, List.getD_cons_succ, List.getD_cons_zero]
  rw [if_neg (by simp : ¬(true = false)), hd]
  rw [if_pos (by norm_num), if_neg (by norm_num)]
  unfold Body.absorb
  simp only [Vec.add, Vec.scale, Vec.zero]
  rw [if_neg (fun h => h.1 rfl)]
  simp only [List.set_cons_succ, List.set_cons_zero]
  unfold moonDead starAbsorbed mkTest
  norm_num [Vec.zero]

lemma c2_e2 : checkPair [moonDead, starAbsorbed, mkTest "planet" 400 10 8 0] 0 2
    = [moonDead, starAbsorbed, planetAbsorbed] := by
  have hd : Vec.dist (⟨0, 0⟩ : Vec) ⟨8, 0⟩ = 8 :=
    sqrt_eval (by norm_num) (by unfold Vec.distSq; norm_num)
  simp only [checkPair, moonDead, mkTest, List.getD_cons_succ, List.getD_cons_zero]
  rw [if_neg (by simp : ¬(true = false)), hd]
  rw [if_pos (by norm_num), if_neg (by norm_num)]
  unfold Body.absorb
  simp only [Vec.add, Vec.scale, Vec.zero]
  rw [if_neg (fun h => absurd h.2 (by norm_num))]
  simp only [List.set_cons_succ, List.set_cons_zero]
  unfold planetAbsorbed mkTest
  norm_num [Vec.zero]

lemma c2_e4 : checkPair [moonDead, starAbsorbed, planetAbsorbed] 1 2
    = [moonDead, starAbsorbed, planetAbsorbed] := by
  have hd : Vec.dist (⟨-1600 / 101, 0⟩ : Vec) ⟨320 / 43, 0⟩ = 101120 / 4343 :=
    sqrt_eval (by norm_num) (by unfold Vec.distSq; norm_num)
  have hc1 : cbrt (3030 / 3000) ≤ 3030 / 3000 := cbrt_le_self (by norm_num)
  have hc2 : cbrt (430 / 400) ≤ 430 / 400 := cbrt_le_self (by norm_num)
  simp only [checkPair, starAbsorbed, planetAbsorbed, mkTest,
    List.getD_cons_succ, List.getD_cons_zero]
  rw [if_neg (by simp : ¬(true = false)), hd]
  rw [if_neg (by nlinarith)]

lemma c2_scan :
    resolveCollisions [mkTest "moon" 30 5 0 0, mkTest "star" 3000 22 (-16) 0,
        mkTest "planet" 400 10 8 0]
      = [starAbsorbed, planetAbsorbed] := by
  unfold resolveCollisions
  have hrange : List.range 3 = [0, 1, 2] := by decide
  have h0 : outerScan [mkTest "moon" 30 5 0 0, mkTest "star" 3000 22 (-16) 0,
      mkTest "planet" 400 10 8 0] 0 = [moonDead, starAbsorbed, planetAbsorbed] := by
    unfold outerScan
    rw [if_neg (by simp [mkTest] : ¬_)]
    have hlen : [mkTest "moon" 30 5 0 0, mkTest "star" 3000 22 (-16) 0,
        mkTest "planet" 400 10 8 0].length = 3 := rfl
    rw [hlen]
    rw [(by norm_num : (3 : ℕ) - (0 + 1) = 2), (by decide : List.range' (0 + 1) 2 = [1, 2])]
    simp only [List.foldl_cons, List.foldl_nil]
    rw [c2_e1, c2_e2]
  have h1 : outerScan [moonDead, starAbsorbed, planetAbsorbed] 1
      = [moonDead, starAbsorbed, planetAbsorbed] := by
    unfold outerScan
    rw [if_neg (by simp [starAbsorbed, mkTest] : ¬_)]
    have hlen : [moonDead, starAbsorbed, planetAbsorbed].length = 3 := rfl
    rw [hlen]
    rw [(by norm_num : (3 : ℕ) - (1 + 1) = 1), (by decide : List.range' (1 + 1) 1 = [2])]
    simp only [List.foldl_cons, List.foldl_nil]
    exact c2_e4
  have h2 : outerScan [moonDead, starAbsorbed, planetAbsorbed] 2
      = [moonDead, starAbsorbed, planetAbsorbed] := by
    unfold outerScan
    rw [if_neg (by simp [planetAbsorbed, mkTest] : ¬_)]
    have hlen : [moonDead, starAbsorbed, planetAbsorbed].length = 3 := rfl
    rw [hlen]
    rw [(by norm_num : (3 : ℕ) - (2 + 1) = 0), (by decide : List.range' (2 + 1) 0 = [])]
    rfl
  have hlen : [mkTest "moon" 30 5 0 0, mkTest "star" 3000 22 (-16) 0,
      mkTest "planet" 400 10 8 0].length = 3 := rfl
  rw [hlen, hrange]
  simp only [List.foldl_cons, List.foldl_nil]
  rw [h0, h1, h2]
  simp [List.filter, moonDead, starAbsorbed, planetAbsorbed, mkTest]

/-- C2 (code bug): total mass before the collision pass is 3430, but after the
pass it is 3460 — the moon (mass 30) killed in pair (0,1) is examined again in
pair (0,2), because only `bodies[j].alive` is rechecked inside the inner loop,
and is absorbed a second time by the planet.  A dead body is NOT skipped in all
remaining pair checks of the same pass. -/
theorem c2_dead_body_reabsorbed :
    (([mkTest "moon" 30 5 0 0, mkTest "star" 3000 22 (-16) 0,
        mkTest "planet" 400 10 8 0].map Body.mass).sum = 3430)
    ∧ (((resolveCollisions [mkTest "moon" 30 5 0 0, mkTest "star" 3000 22 (-16) 0,
        mkTest "planet" 400 10 8 0]).map Body.mass).sum = 3460) := by
  constructor
  · simp [mkTest]
    norm_num
  · rw [c2_scan]
    simp [starAbsorbed, planetAbsorbed, mkTest]
    norm_num

/-! Two-body evaluation machinery for one Verlet sub-step (used for C8). -/

/-- Position of a body after the half-kick and drift phases of one sub-step. -/
def driftPos (h : ℝ) (b : Body) : Vec :=
  b.pos.add ((b.vel.add (b.acc.scale (0.5 * h))).scale h)

/-- x-separation of the drifted pair. -/
def pairDX (h : ℝ) (x y : Body) : ℝ := (driftPos h y).x - (driftPos h x).x

/-- y-separation of the drifted pair. -/
def pairDY (h : ℝ) (x y : Body) : ℝ := (driftPos h y).y - (driftPos h x).y

/-- Softened squared distance of the drifted pair. -/
def pairDS (soft h : ℝ) (x y : Body) : ℝ :=
  pairDX h x y * pairDX h x y + pairDY h x y * pairDY h x y + soft * soft

/-- Raw x force component on the drifted pair, as the source computes it. -/
def pairFx (G soft h : ℝ) (x y : Body) : ℝ :=
  G * x.mass * y.mass / pairDS soft h x y * pairDX h x y / Real.sqrt (pairDS soft h x y)

/-- Raw y force component on the drifted pair. -/
def pairFy (G soft h : ℝ) (x y : Body) : ℝ :=
  G * x.mass * y.mass / pairDS soft h x y * pairDY h x y / Real.sqrt (pairDS soft h x y)

/-- Acceleration accumulated on the first body of the pair. -/
def accA (G soft h : ℝ) (x y : Body) : Vec :=
  ⟨0 + pairFx G soft h x y / x.mass, 0 + pairFy G soft h x y / x.mass⟩

/-- Acceleration accumulated on the second body of the pair. -/
def accB (G soft h : ℝ) (x y : Body) : Vec :=
  ⟨0 - pairFx G soft h x y / y.mass, 0 - pairFy G soft h x y / y.mass⟩

/-- One Verlet sub-step on a two-body list, fully evaluated. -/
lemma iv_two (G soft h : ℝ) (x y : Body) :
    integrateVerlet G soft h [x, y] =
      [{ x with pos := driftPos h x,
                vel := (x.vel.add (x.acc.scale (0.5 * h))).add
                  ((accA G soft h x y).scale (0.5 * h)),
                acc := accA G soft h x y },
       { y with pos := driftPos h y,
                vel := (y.vel.add (y.acc.scale (0.5 * h))).add
                  ((accB G soft h x y).scale (0.5 * h)),
                acc := accB G soft h x y }] := rfl

/-- One Verlet sub-step on a two-body list: drifted positions, with the new
velocities and accelerations abstracted away. -/
lemma iv_shape_two (G soft h : ℝ) (x y : Body) :
    ∃ vx ax vy ay,
      integrateVerlet G soft h [x, y] =
        [{ x with pos := driftPos h x, vel := vx, acc := ax },
         { y with pos := driftPos h y, vel := vy, acc := ay }] :=
  ⟨_, _, _, _, iv_two G soft h x y⟩

/-- A body at rest with zero acceleration does not move during the drift
phase. -/
lemma driftPos_rest (h : ℝ) {b : Body} (hv : b.vel = Vec.zero)
    (ha : b.acc = Vec.zero) : driftPos h b = b.pos := by
  unfold driftPos
  rw [hv, ha]
  unfold Vec.zero Vec.add Vec.scale
  ext <;> dsimp <;> ring

lemma pairDX_rest (h : ℝ) {x y : Body} (hvx : x.vel = Vec.zero)
    (hvy : y.vel = Vec.zero) (hax : x.acc = Vec.zero) (hay : y.acc = Vec.zero) :
    pairDX h x y = y.pos.x - x.pos.x := by
  unfold pairDX
  rw [driftPos_rest h hvx hax, driftPos_rest h hvy hay]

lemma pairDY_rest (h : ℝ) {x y : Body} (hvx : x.vel = Vec.zero)
    (hvy : y.vel = Vec.zero) (hax : x.acc = Vec.zero) (hay : y.acc = Vec.zero) :
    pairDY h x y = y.pos.y - x.pos.y := by
  unfold pairDY
  rw [driftPos_rest h hvx hax, driftPos_rest h hvy hay]

lemma pairDS_rest (soft h : ℝ) {x y : Body} (hvx : x.vel = Vec.zero)
    (hvy : y.vel = Vec.zero) (hax : x.acc = Vec.zero) (hay : y.acc = Vec.zero) :
    pairDS soft h x y = Vec.distSq x.pos y.pos + soft * soft := by
  unfold pairDS Vec.distSq
  rw [pairDX_rest h hvx hvy hax hay, pairDY_rest h hvx hvy hax hay]

/-- Cancel the accelerated body's own mass out of `force / mass`. -/
lemma force_cancel {G mx my d s dx : ℝ} (hmx : mx ≠ 0) :
    (G * mx * my / d * dx / s) / mx = G * my * dx / (d * s) := by
  rw [div_mul_eq_mul_div, div_div, div_div]
  rw [show G * mx * my * dx = mx * (G * my * dx) by ring,
    show d * (s * mx) = mx * (d * s) by ring]
  exact mul_div_mul_left _ _ hmx

lemma accA_rest (G soft h : ℝ) {x y : Body} (hvx : x.vel = Vec.zero)
    (hvy : y.vel = Vec.zero) (hax : x.acc = Vec.zero) (hay : y.acc = Vec.zero)
    (hmx : x.mass ≠ 0) :
    accA G soft h x y =
      ⟨G * y.mass * (y.pos.x - x.pos.x)
          / ((Vec.distSq x.pos y.pos + soft * soft)
             * Real.sqrt (Vec.distSq x.pos y.pos + soft * soft)),
       G * y.mass * (y.pos.y - x.pos.y)
          / ((Vec.distSq x.pos y.pos + soft * soft)
             * Real.sqrt (Vec.distSq x.pos y.pos + soft * soft))⟩ := by
  unfold accA pairFx pairFy
  rw [pairDS_rest soft h hvx hvy hax hay, pairDX_rest h hvx hvy hax hay,
    pairDY_rest h hvx hvy hax hay]
  ext <;> dsimp <;> rw [zero_add, force_cancel hmx]

lemma accB_rest (G soft h : ℝ) {x y : Body} (hvx : x.vel = Vec.zero)
    (hvy : y.vel = Vec.zero) (hax : x.acc = Vec.zero) (hay : y.acc = Vec.zero)
    (hmy : y.mass ≠ 0) :
    accB G soft h x y =
      ⟨-(G * x.mass * (y.pos.x - x.pos.x)
          / ((Vec.distSq x.pos y.pos + soft * soft)
             * Real.sqrt (Vec.distSq x.pos y.pos + soft * soft))),
       -(G * x.mass * (y.pos.y - x.pos.y)
          / ((Vec.distSq x.pos y.pos + soft * soft)
             * Real.sqrt (Vec.distSq x.pos y.pos + soft * soft)))⟩ := by
  unfold accB pairFx pairFy
  rw [pairDS_rest soft h hvx hvy hax hay, pairDX_rest h hvx hvy hax hay,
    pairDY_rest h hvx hvy hax hay]
  ext <;> dsimp <;>
    rw [zero_sub, show G * x.mass * y.mass = G * y.mass * x.mass by ring,
      force_cancel hmy]

lemma absorb_fst_alive (b o : Body) : (b.absorb o).1.alive = b.alive := by
  unfold Body.absorb
  dsimp only
  split <;> rfl

lemma absorb_snd_alive (b o : Body) : (b.absorb o).2.alive = false := rfl

/-- `checkPair` on a two-body list, fully evaluated. -/
lemma checkPair_two (x y : Body) (hay : y.alive = true) :
    checkPair [x, y] 0 1 =
      if Vec.dist x.pos y.pos < (x.radius + y.radius) * 0.6 then
        (if y.mass ≤ x.mass then [(x.absorb y).1, (x.absorb y).2]
         else [(y.absorb x).2, (y.absorb x).1])
      else [x, y] := by
  simp only [checkPair, List.getD_cons_zero, List.getD_cons_succ, hay]
  rw [if_neg (by simp : ¬(true = false))]
  split
  · split <;> simp [List.set_cons_zero, List.set_cons_succ]
  · rfl

/-- The full collision pass on a two-body list of live bodies. -/
lemma resolve_two (x y : Body) (hax : x.alive = true) (hay : y.alive = true) :
    resolveCollisions [x, y] =
      if Vec.dist x.pos y.pos < (x.radius + y.radius) * 0.6 then
        (if y.mass ≤ x.mass then [(x.absorb y).1] else [(y.absorb x).1])
      else [x, y] := by
  have habsX : (x.absorb y).1.alive = x.alive := absorb_fst_alive x y
  have habsY : (y.absorb x).1.alive = y.alive := absorb_fst_alive y x
  unfold resolveCollisions
  have hlen : [x, y].length = 2 := rfl
  rw [hlen, (by decide : List.range 2 = [0, 1])]
  simp only [List.foldl_cons, List.foldl_nil]
  have h0 : outerScan [x, y] 0 = checkPair [x, y] 0 1 := by
    unfold outerScan
    rw [if_neg (show ¬(([x, y].getD 0 default).alive = false) by
      simp [List.getD_cons_zero, hax])]
    rw [hlen, (by norm_num : (2 : ℕ) - (0 + 1) = 1),
      (by decide : List.range' (0 + 1) 1 = [1])]
    simp only [List.foldl_cons, List.foldl_nil]
  rw [h0, checkPair_two x y hay]
  by_cases hC : Vec.dist x.pos y.pos < (x.radius + y.radius) * 0.6
  · rw [if_pos hC, if_pos hC]
    by_cases hm : y.mass ≤ x.mass
    · rw [if_pos hm, if_pos hm]
      have hsc : outerScan [(x.absorb y).1, (x.absorb y).2] 1
          = [(x.absorb y).1, (x.absorb y).2] := by
        unfold outerScan
        rw [if_pos (show (([(x.absorb y).1, (x.absorb y).2].getD 1 default).alive = false) by
          simp [List.getD_cons_succ, List.getD_cons_zero, absorb_snd_alive])]
      rw [hsc]
      simp [List.filter_cons, List.filter_nil, habsX, hax, absorb_snd_alive]
    · rw [if_neg hm, if_neg hm]
      have hsc : outerScan [(y.absorb x).2, (y.absorb x).1] 1
          = [(y.absorb x).2, (y.absorb x).1] := by
        unfold outerScan
        rw [if_neg (show ¬(([(y.absorb x).2, (y.absorb x).1].getD 1 default).alive = false) by
          simp [List.getD_cons_succ, List.getD_cons_zero, habsY, hay])]
        have hlen2 : [(y.absorb x).2, (y.absorb x).1].length = 2 := rfl
        rw [hlen2, (by norm_num : (2 : ℕ) - (1 + 1) = 0),
          (by decide : List.range' (1 + 1) 0 = [])]
        rfl
      rw [hsc]
      simp [List.filter_cons, List.filter_nil, habsY, hay, absorb_snd_alive]
  · rw [if_neg hC, if_neg hC]
    have hsc : outerScan [x, y] 1 = [x, y] := by
      unfold outerScan
      rw [if_neg (show ¬(([x, y].getD 1 default).alive = false) by
        simp [List.getD_cons_succ, List.getD_cons_zero, hay])]
      rw [hlen, (by norm_num : (2 : ℕ) - (1 + 1) = 0),
        (by decide : List.range' (1 + 1) 0 = [])]
      rfl
    rw [hsc]
    simp [List.filter_cons, List.filter_nil, hax, hay]

/-- Unpaused `step`, unfolded. -/
lemma step_unpaused (sim : Simulation) (f ts : ℝ) (h : sim.paused = false) :
    sim.step f ts =
      { sim with
        bodies := resolveCollisions
          (((integrateVerlet sim.G sim.softening
              ((min f MAX_FRAME_DT) * ts / (sim.substeps : ℝ)))^[sim.substeps]
              sim.bodies).map fun b => { b.recordTrail with age := b.age + 1 }),
        elapsed := sim.elapsed + (min f MAX_FRAME_DT) * ts } := by
  simp only [Simulation.step, h, Bool.false_eq_true, if_false]

/-- `recordTrail` plus ageing only touches `trail` and `age`. -/
lemma postFrame_shape (b : Body) :
    ∃ tr, { b.recordTrail with age := b.age + 1 } = { b with trail := tr, age := b.age + 1 } :=
  ⟨_, rfl⟩

/-- Trail/age post-processing of a two-body list only touches `trail`/`age`. -/
lemma postFrame_two (x y : Body) :
    ∃ t1 t2, [x, y].map (fun b => { b.recordTrail with age := b.age + 1 })
      = [{ x with trail := t1, age := x.age + 1 },
         { y with trail := t2, age := y.age + 1 }] :=
  ⟨_, _, rfl⟩

/-- First resting planet of the C8 counterexample scenario. -/
def p1C8 : Body := mkTest "planet" 400 10 0 0

/-- Second resting planet of the C8 counterexample scenario. -/
def p2C8 : Body := mkTest "planet" 400 10 20 0

/-- A single-substep engine holding two resting planets 20 units apart. -/
def simC8 : Simulation :=
  { bodies := [p1C8, p2C8], G := 800, softening := 8, substeps := 1,
    elapsed := 0, paused := false }

/-- C8 (counterexample): on an engine with `substeps = 1`, two bodies created
at distinct positions with zero velocity do not move at all in one unpaused
step (the first half-kick uses the zero initial acceleration and the drift the
still-zero velocity), so with positive frame delta and time scale and no
collision triggered the distance stays exactly 20 — it does not strictly
decrease. -/
theorem c8_counterexample :
    simC8.paused = false
    ∧ p1C8.vel = Vec.zero ∧ p2C8.vel = Vec.zero
    ∧ p1C8.pos ≠ p2C8.pos
    ∧ ((simC8.step (16 / 1000) 1).bodies).length = 2
    ∧ ¬ (Vec.dist (((simC8.step (16 / 1000) 1).bodies.getD 0 default).pos)
           (((simC8.step (16 / 1000) 1).bodies.getD 1 default).pos)
         < Vec.dist p1C8.pos p2C8.pos) := by
  have hp1 : p1C8.pos = ⟨0, 0⟩ := rfl
  have hp2 : p2C8.pos = ⟨20, 0⟩ := rfl
  have hr1 : p1C8.radius = 10 := rfl
  have hr2 : p2C8.radius = 10 := rfl
  have hdd : Vec.dist (⟨0, 0⟩ : Vec) ⟨20, 0⟩ = 20 :=
    sqrt_eval (by norm_num) (by unfold Vec.distSq; norm_num)
  have hstep := step_unpaused simC8 (16 / 1000) 1 rfl
  have hsub : simC8.substeps = 1 := rfl
  have hbs : simC8.bodies = [p1C8, p2C8] := rfl
  rw [hsub, hbs, Function.iterate_one] at hstep
  obtain ⟨vx, ax, vy, ay, hiv⟩ :=
    iv_shape_two simC8.G simC8.softening
      ((min (16 / 1000) MAX_FRAME_DT) * 1 / ((1 : ℕ) : ℝ)) p1C8 p2C8
  rw [hiv, driftPos_rest _ rfl rfl, driftPos_rest _ rfl rfl] at hstep
  obtain ⟨t1, t2, hpf⟩ := postFrame_two
    { p1C8 with pos := p1C8.pos, vel := vx, acc := ax }
    { p2C8 with pos := p2C8.pos, vel := vy, acc := ay }
  rw [hpf] at hstep
  rw [resolve_two _ _ rfl rfl] at hstep
  dsimp only at hstep
  rw [hp1, hp2, hr1, hr2, hdd] at hstep
  rw [if_neg (by norm_num)] at hstep
  refine ⟨rfl, rfl, rfl, ?_, ?_, ?_⟩
  · intro heq
    rw [hp1, hp2] at heq
    have := congrArg Vec.x heq
    norm_num at this
  · rw [hstep]
    rfl
  · rw [hstep]
    simp only [List.getD_cons_zero, List.getD_cons_succ]
    rw [hp1, hp2, hdd]
    norm_num

lemma rest_kick (h : ℝ) (w : Vec) :
    (Vec.zero.add (Vec.zero.scale h)).add (w.scale h) = w.scale h := by
  unfold Vec.zero Vec.add Vec.scale
  ext <;> dsimp <;> ring

/-- One Verlet sub-step on two bodies at rest with zero acceleration:
positions are unchanged, and each body picks up half a kick of the freshly
computed pairwise acceleration. -/
lemma iv_rest (G soft h : ℝ) (a b : Body)
    (hva : a.vel = Vec.zero) (hvb : b.vel = Vec.zero)
    (haa : a.acc = Vec.zero) (hab : b.acc = Vec.zero)
    (hma : a.mass ≠ 0) (hmb : b.mass ≠ 0) :
    ∃ x1 y1, integrateVerlet G soft h [a, b] = [x1, y1]
      ∧ x1.pos = a.pos ∧ y1.pos = b.pos
      ∧ x1.vel = (⟨G * b.mass * (b.pos.x - a.pos.x)
            / ((Vec.distSq a.pos b.pos + soft * soft)
               * Real.sqrt (Vec.distSq a.pos b.pos + soft * soft)),
          G * b.mass * (b.pos.y - a.pos.y)
            / ((Vec.distSq a.pos b.pos + soft * soft)
               * Real.sqrt (Vec.distSq a.pos b.pos + soft * soft))⟩ : Vec).scale (0.5 * h)
      ∧ x1.acc = ⟨G * b.mass * (b.pos.x - a.pos.x)
            / ((Vec.distSq a.pos b.pos + soft * soft)
               * Real.sqrt (Vec.distSq a.pos b.pos + soft * soft)),
          G * b.mass * (b.pos.y - a.pos.y)
            / ((Vec.distSq a.pos b.pos + soft * soft)
               * Real.sqrt (Vec.distSq a.pos b.pos + soft * soft))⟩
      ∧ y1.vel = (⟨-(G * a.mass * (b.pos.x - a.pos.x)
            / ((Vec.distSq a.pos b.pos + soft * soft)
               * Real.sqrt (Vec.distSq a.pos b.pos + soft * soft))),
          -(G * a.mass * (b.pos.y - a.pos.y)
            / ((Vec.distSq a.pos b.pos + soft * soft)
               * Real.sqrt (Vec.distSq a.pos b.pos + soft * soft)))⟩ : Vec).scale (0.5 * h)
      ∧ y1.acc = ⟨-(G * a.mass * (b.pos.x - a.pos.x)
            / ((Vec.distSq a.pos b.pos + soft * soft)
               * Real.sqrt (Vec.distSq a.pos b.pos + soft * soft))),
          -(G * a.mass * (b.pos.y - a.pos.y)
            / ((Vec.distSq a.pos b.pos + soft * soft)
               * Real.sqrt (Vec.distSq a.pos b.pos + soft * soft)))⟩
      ∧ x1.mass = a.mass ∧ y1.mass = b.mass
      ∧ x1.radius = a.radius ∧ y1.radius = b.radius
      ∧ x1.alive = a.alive ∧ y1.alive = b.alive
      ∧ x1.age = a.age ∧ y1.age = b.age := by
  have h2 := iv_two G soft h a b
  rw [driftPos_rest h hva haa, driftPos_rest h hvb hab,
    accA_rest G soft h hva hvb haa hab hma, accB_rest G soft h hva hvb haa hab hmb,
    hva, haa, hvb, hab, rest_kick, rest_kick] at h2
  exact ⟨_, _, h2, rfl, rfl, rfl, rfl, rfl, rfl, rfl, rfl, rfl, rfl, rfl, rfl, rfl, rfl⟩

/-- One Verlet sub-step on two bodies whose velocity is half a kick of their
current acceleration: each body drifts by acceleration times `h²`. -/
lemma iv_kicked (G soft h : ℝ) (x1 y1 : Body) (w1 w2 : Vec)
    (hv1 : x1.vel = w1.scale (0.5 * h)) (ha1 : x1.acc = w1)
    (hv2 : y1.vel = w2.scale (0.5 * h)) (ha2 : y1.acc = w2) :
    ∃ x2 y2, integrateVerlet G soft h [x1, y1] = [x2, y2]
      ∧ x2.pos = ⟨x1.pos.x + w1.x * (h * h), x1.pos.y + w1.y * (h * h)⟩
      ∧ y2.pos = ⟨y1.pos.x + w2.x * (h * h), y1.pos.y + w2.y * (h * h)⟩
      ∧ x2.mass = x1.mass ∧ y2.mass = y1.mass
      ∧ x2.radius = x1.radius ∧ y2.radius = y1.radius
      ∧ x2.alive = x1.alive ∧ y2.alive = y1.alive
      ∧ x2.age = x1.age ∧ y2.age = y1.age := by
  refine ⟨_, _, iv_two G soft h x1 y1, ?_, ?_, rfl, rfl, rfl, rfl, rfl, rfl, rfl, rfl⟩
  · show driftPos h x1 = _
    unfold driftPos
    rw [hv1, ha1]
    unfold Vec.add Vec.scale
    ext <;> dsimp <;> ring
  · show driftPos h y1 = _
    unfold driftPos
    rw [hv2, ha2]
    unfold Vec.add Vec.scale
    ext <;> dsimp <;> ring

/-- An unpaused step with two substeps on two live bodies at rest: the bodies
drift toward each other by `acceleration · h²` and then go through the
collision pass. -/
lemma step2_rest (sim : Simulation) (f ts : ℝ) (a b : Body)
    (hpause : sim.paused = false)
    (hsub : sim.substeps = 2)
    (hbodies : sim.bodies = [a, b])
    (hva : a.vel = Vec.zero) (hvb : b.vel = Vec.zero)
    (haa : a.acc = Vec.zero) (hab : b.acc = Vec.zero)
    (hma : a.mass ≠ 0) (hmb : b.mass ≠ 0) :
    ∃ w1 w2 : Body,
      (sim.step f ts).bodies = resolveCollisions [w1, w2]
      ∧ w1.pos = ⟨a.pos.x + sim.G * b.mass * (b.pos.x - a.pos.x)
            / ((Vec.distSq a.pos b.pos + sim.softening * sim.softening)
               * Real.sqrt (Vec.distSq a.pos b.pos + sim.softening * sim.softening))
            * ((min f MAX_FRAME_DT) * ts / 2 * ((min f MAX_FRAME_DT) * ts / 2)),
          a.pos.y + sim.G * b.mass * (b.pos.y - a.pos.y)
            / ((Vec.distSq a.pos b.pos + sim.softening * sim.softening)
               * Real.sqrt (Vec.distSq a.pos b.pos + sim.softening * sim.softening))
            * ((min f MAX_FRAME_DT) * ts / 2 * ((min f MAX_FRAME_DT) * ts / 2))⟩
      ∧ w2.pos = ⟨b.pos.x + -(sim.G * a.mass * (b.pos.x - a.pos.x)
            / ((Vec.distSq a.pos b.pos + sim.softening * sim.softening)
               * Real.sqrt (Vec.distSq a.pos b.pos + sim.softening * sim.softening)))
            * ((min f MAX_FRAME_DT) * ts / 2 * ((min f MAX_FRAME_DT) * ts / 2)),
          b.pos.y + -(sim.G * a.mass * (b.pos.y - a.pos.y)
            / ((Vec.distSq a.pos b.pos + sim.softening * sim.softening)
               * Real.sqrt (Vec.distSq a.pos b.pos + sim.softening * sim.softening)))
            * ((min f MAX_FRAME_DT) * ts / 2 * ((min f MAX_FRAME_DT) * ts / 2))⟩
      ∧ w1.mass = a.mass ∧ w2.mass = b.mass
      ∧ w1.radius = a.radius ∧ w2.radius = b.radius
      ∧ w1.alive = a.alive ∧ w2.alive = b.alive := by
  have hstep := step_unpaused sim f ts hpause
  rw [hsub, hbodies] at hstep
  simp only [Nat.cast_ofNat] at hstep
  rw [(by norm_num : (2 : ℕ) = 1 + 1), Function.iterate_add_apply] at hstep
  simp only [Function.iterate_one] at hstep
  obtain ⟨x1, y1, hIV1, hx1p, hy1p, hx1v, hx1a, hy1v, hy1a, hx1m, hy1m, hx1r, hy1r,
    hx1al, hy1al, hx1ag, hy1ag⟩ :=
    iv_rest sim.G sim.softening ((min f MAX_FRAME_DT) * ts / 2) a b hva hvb haa hab hma hmb
  rw [hIV1] at hstep
  obtain ⟨x2, y2, hIV2, hx2p, hy2p, hx2m, hy2m, hx2r, hy2r, hx2al, hy2al, hx2ag, hy2ag⟩ :=
    iv_kicked sim.G sim.softening ((min f MAX_FRAME_DT) * ts / 2) x1 y1 _ _
      hx1v hx1a hy1v hy1a
  rw [hIV2] at hstep
  obtain ⟨t1, t2, hpf⟩ := postFrame_two x2 y2
  rw [hpf] at hstep
  refine ⟨{ x2 with trail := t1, age := x2.age + 1 },
          { y2 with trail := t2, age := y2.age + 1 },
          by rw [hstep], ?_, ?_, hx2m.trans hx1m, hy2m.trans hy1m,
          hx2r.trans hx1r, hy2r.trans hy1r, hx2al.trans hx1al, hy2al.trans hy1al⟩
  · show x2.pos = _
    rw [hx2p, hx1p]
  · show y2.pos = _
    rw [hy2p, hy1p]

/-- Distance between two points pulled toward each other along their
separation by fractions `α` and `β`. -/
lemma pull_dist (px py qx qy α β : ℝ) :
    Vec.dist ⟨px + α * (qx - px), py + α * (qy - py)⟩
        ⟨qx - β * (qx - px), qy - β * (qy - py)⟩
      = |1 - (α + β)| * Real.sqrt ((qx - px) * (qx - px) + (qy - py) * (qy - py)) := by
  unfold Vec.dist Vec.distSq
  rw [show (qx - β * (qx - px) - (px + α * (qx - px)))
          * (qx - β * (qx - px) - (px + α * (qx - px)))
        + (qy - β * (qy - py) - (py + α * (qy - py)))
          * (qy - β * (qy - py) - (py + α * (qy - py)))
      = (1 - (α + β)) ^ 2 * ((qx - px) * (qx - px) + (qy - py) * (qy - py)) from by ring]
  rw [Real.sqrt_mul (sq_nonneg _), Real.sqrt_sq_eq_abs]

/-- C8 (amended): with the engine configured for two substeps, two live bodies
created at distinct positions with zero initial velocity move strictly closer
over one unpaused step — provided the frame delta and time scale are positive,
masses and `G` are positive, the sub-interval `h = min(frameDelta,
MAX_FRAME_DT)·timeScale/2` is small enough that `G·(m_a+m_b)·h² <
2·D·√D` (with `D` the softened squared separation, ruling out overshoot past
each other), and no collision is triggered (both bodies survive the step).
With a single substep the positions do not move at all (see the
counterexample), so at least two substeps are required for any motion from
rest. -/
theorem c8_amended (sim : Simulation) (f ts : ℝ) (a b : Body)
    (hpause : sim.paused = false)
    (hsub : sim.substeps = 2)
    (hbodies : sim.bodies = [a, b])
    (hva : a.vel = Vec.zero) (hvb : b.vel = Vec.zero)
    (haa : a.acc = Vec.zero) (hab : b.acc = Vec.zero)
    (haliveA : a.alive = true) (haliveB : b.alive = true)
    (hma : 0 < a.mass) (hmb : 0 < b.mass) (hG : 0 < sim.G)
    (hpos : a.pos ≠ b.pos)
    (hf : 0 < f) (hts : 0 < ts)
    (hsmall : sim.G * (a.mass + b.mass) * ((min f MAX_FRAME_DT) * ts / 2) ^ 2
        < 2 * ((Vec.distSq a.pos b.pos + sim.softening * sim.softening)
            * Real.sqrt (Vec.distSq a.pos b.pos + sim.softening * sim.softening)))
    (hnocol : ((sim.step f ts).bodies).length = 2) :
    Vec.dist (((sim.step f ts).bodies.getD 0 default).pos)
        (((sim.step f ts).bodies.getD 1 default).pos)
      < Vec.dist a.pos b.pos := by
  obtain ⟨w1, w2, hbod, hw1p, hw2p, hw1m, hw2m, hw1r, hw2r, hw1al, hw2al⟩ :=
    step2_rest sim f ts a b hpause hsub hbodies hva hvb haa hab hma.ne' hmb.ne'
  have hq : 0 < (b.pos.x - a.pos.x) * (b.pos.x - a.pos.x)
      + (b.pos.y - a.pos.y) * (b.pos.y - a.pos.y) := by
    rcases (mul_self_nonneg (b.pos.x - a.pos.x)).lt_or_eq with h1 | h1
    · nlinarith [mul_self_nonneg (b.pos.y - a.pos.y)]
    · rcases (mul_self_nonneg (b.pos.y - a.pos.y)).lt_or_eq with h2 | h2
      · nlinarith
      · exfalso
        apply hpos
        have e1 := mul_self_eq_zero.mp h1.symm
        have e2 := mul_self_eq_zero.mp h2.symm
        ext
        · linarith
        · linarith
  have hqd : Vec.distSq a.pos b.pos = (b.pos.x - a.pos.x) * (b.pos.x - a.pos.x)
      + (b.pos.y - a.pos.y) * (b.pos.y - a.pos.y) := rfl
  have hDD : 0 < Vec.distSq a.pos b.pos + sim.softening * sim.softening := by
    rw [hqd]
    nlinarith [mul_self_nonneg sim.softening]
  have hs : 0 < Real.sqrt (Vec.distSq a.pos b.pos + sim.softening * sim.softening) :=
    Real.sqrt_pos.mpr hDD
  have hDs : 0 < (Vec.distSq a.pos b.pos + sim.softening * sim.softening)
      * Real.sqrt (Vec.distSq a.pos b.pos + sim.softening * sim.softening) :=
    mul_pos hDD hs
  have hH : 0 < (min f MAX_FRAME_DT) * ts / 2 := by
    have hmin : 0 < min f MAX_FRAME_DT := lt_min hf (by norm_num [MAX_FRAME_DT])
    positivity
  have hκpos : 0 < sim.G * (a.mass + b.mass)
      * ((min f MAX_FRAME_DT) * ts / 2 * ((min f MAX_FRAME_DT) * ts / 2))
      / ((Vec.distSq a.pos b.pos + sim.softening * sim.softening)
         * Real.sqrt (Vec.distSq a.pos b.pos + sim.softening * sim.softening)) :=
    div_pos (mul_pos (mul_pos hG (by linarith)) (mul_pos hH hH)) hDs
  have hκ2 : sim.G * (a.mass + b.mass)
      * ((min f MAX_FRAME_DT) * ts / 2 * ((min f MAX_FRAME_DT) * ts / 2))
      / ((Vec.distSq a.pos b.pos + sim.softening * sim.softening)
         * Real.sqrt (Vec.distSq a.pos b.pos + sim.softening * sim.softening)) < 2 := by
    rw [div_lt_iff₀ hDs]
    rw [pow_two] at hsmall
    linarith
  rw [hbod] at hnocol
  rw [resolve_two w1 w2 (hw1al.trans haliveA) (hw2al.trans haliveB)] at hbod hnocol
  by_cases hC : Vec.dist w1.pos w2.pos < (w1.radius + w2.radius) * 0.6
  · exfalso
    rw [if_pos hC] at hnocol
    by_cases hm : w2.mass ≤ w1.mass
    · rw [if_pos hm] at hnocol
      simp at hnocol
    · rw [if_neg hm] at hnocol
      simp at hnocol
  rw [if_neg hC] at hbod
  rw [hbod]
  simp only [List.getD_cons_zero, List.getD_cons_succ]
  have hw1p' : w1.pos =
      ⟨a.pos.x + sim.G * b.mass
          / ((Vec.distSq a.pos b.pos + sim.softening * sim.softening)
             * Real.sqrt (Vec.distSq a.pos b.pos + sim.softening * sim.softening))
          * ((min f MAX_FRAME_DT) * ts / 2 * ((min f MAX_FRAME_DT) * ts / 2))
          * (b.pos.x - a.pos.x),
        a.pos.y + sim.G * b.mass
          / ((Vec.distSq a.pos b.pos + sim.softening * sim.softening)
             * Real.sqrt (Vec.distSq a.pos b.pos + sim.softening * sim.softening))
          * ((min f MAX_FRAME_DT) * ts / 2 * ((min f MAX_FRAME_DT) * ts / 2))
          * (b.pos.y - a.pos.y)⟩ := by
    rw [hw1p]
    ext <;> dsimp <;> ring
  have hw2p' : w2.pos =
      ⟨b.pos.x - sim.G * a.mass
          / ((Vec.distSq a.pos b.pos + sim.softening * sim.softening)
             * Real.sqrt (Vec.distSq a.pos b.pos + sim.softening * sim.softening))
          * ((min f MAX_FRAME_DT) * ts / 2 * ((min f MAX_FRAME_DT) * ts / 2))
          * (b.pos.x - a.pos.x),
        b.pos.y - sim.G * a.mass
          / ((Vec.distSq a.pos b.pos + sim.softening * sim.softening)
             * Real.sqrt (Vec.distSq a.pos b.pos + sim.softening * sim.softening))
          * ((min f MAX_FRAME_DT) * ts / 2 * ((min f MAX_FRAME_DT) * ts / 2))
          * (b.pos.y - a.pos.y)⟩ := by
    rw [hw2p]
    ext <;> dsimp <;> ring
  rw [hw1p', hw2p', pull_dist a.pos.x a.pos.y b.pos.x b.pos.y]
  have hRHS : Vec.dist a.pos b.pos
      = Real.sqrt ((b.pos.x - a.pos.x) * (b.pos.x - a.pos.x)
          + (b.pos.y - a.pos.y) * (b.pos.y - a.pos.y)) := rfl
  rw [hRHS]
  have hsq : 0 < Real.sqrt ((b.pos.x - a.pos.x) * (b.pos.x - a.pos.x)
      + (b.pos.y - a.pos.y) * (b.pos.y - a.pos.y)) := Real.sqrt_pos.mpr hq
  have hsum : sim.G * b.mass
        / ((Vec.distSq a.pos b.pos + sim.softening * sim.softening)
           * Real.sqrt (Vec.distSq a.pos b.pos + sim.softening * sim.softening))
        * ((min f MAX_FRAME_DT) * ts / 2 * ((min f MAX_FRAME_DT) * ts / 2))
      + sim.G * a.mass
        / ((Vec.distSq a.pos b.pos + sim.softening * sim.softening)
           * Real.sqrt (Vec.distSq a.pos b.pos + sim.softening * sim.softening))
        * ((min f MAX_FRAME_DT) * ts / 2 * ((min f MAX_FRAME_DT) * ts / 2))
      = sim.G * (a.mass + b.mass)
        * ((min f MAX_FRAME_DT) * ts / 2 * ((min f MAX_FRAME_DT) * ts / 2))
        / ((Vec.distSq a.pos b.pos + sim.softening * sim.softening)
           * Real.sqrt (Vec.distSq a.pos b.pos + sim.softening * sim.softening)) := by
    ring
  rw [hsum]
  have habs : |1 - sim.G * (a.mass + b.mass)
      * ((min f MAX_FRAME_DT) * ts / 2 * ((min f MAX_FRAME_DT) * ts / 2))
      / ((Vec.distSq a.pos b.pos + sim.softening * sim.softening)
         * Real.sqrt (Vec.distSq a.pos b.pos + sim.softening * sim.softening))| < 1 :=
    abs_lt.mpr ⟨by linarith, by linarith⟩
  exact mul_lt_of_lt_one_left hsq habs

/-- First resting moon of the C8 amended-claim witness scenario. -/
def aW8 : Body := mkTest "moon" 30 5 0 0

/-- Second resting moon of the C8 amended-claim witness scenario. -/
def bW8 : Body := mkTest "moon" 30 5 15 0

/-- A two-substep engine holding two resting moons 15 units apart. -/
def simW8 : Simulation :=
  { bodies := [aW8, bW8], G := 800, softening := 8, substeps := 2,
    elapsed := 0, paused := false }

theorem c8_amended_witness :
    simW8.paused = false
    ∧ simW8.substeps = 2
    ∧ simW8.bodies = [aW8, bW8]
    ∧ aW8.vel = Vec.zero ∧ bW8.vel = Vec.zero
    ∧ aW8.acc = Vec.zero ∧ bW8.acc = Vec.zero
    ∧ aW8.alive = true ∧ bW8.alive = true
    ∧ 0 < aW8.mass ∧ 0 < bW8.mass ∧ 0 < simW8.G
    ∧ aW8.pos ≠ bW8.pos
    ∧ (0 : ℝ) < 1 / 20 ∧ (0 : ℝ) < 1
    ∧ simW8.G * (aW8.mass + bW8.mass) * ((min (1 / 20) MAX_FRAME_DT) * 1 / 2) ^ 2
        < 2 * ((Vec.distSq aW8.pos bW8.pos + simW8.softening * simW8.softening)
            * Real.sqrt (Vec.distSq aW8.pos bW8.pos + simW8.softening * simW8.softening))
    ∧ ((simW8.step (1 / 20) 1).bodies).length = 2
    ∧ Vec.dist (((simW8.step (1 / 20) 1).bodies.getD 0 default).pos)
        (((simW8.step (1 / 20) 1).bodies.getD 1 default).pos)
      < Vec.dist aW8.pos bW8.pos := by
  have hpa : aW8.pos = ⟨0, 0⟩ := rfl
  have hpb : bW8.pos = ⟨15, 0⟩ := rfl
  have hG8 : simW8.G = 800 := rfl
  have hmA : aW8.mass = 30 := rfl
  have hmB : bW8.mass = 30 := rfl
  have hsoft : simW8.softening = 8 := rfl
  have hdsq : Vec.distSq aW8.pos bW8.pos = 225 := by
    show Vec.distSq ⟨0, 0⟩ ⟨15, 0⟩ = 225
    unfold Vec.distSq
    norm_num
  have hsqrt : Real.sqrt 289 = 17 := sqrt_eval (by norm_num) (by norm_num)
  have hmin : min (1 / 20 : ℝ) MAX_FRAME_DT = 1 / 20 :=
    min_eq_left (by norm_num [MAX_FRAME_DT])
  have hposW : aW8.pos ≠ bW8.pos := by
    rw [hpa, hpb]
    intro h
    have := congrArg Vec.x h
    norm_num at this
  have hsmallW : simW8.G * (aW8.mass + bW8.mass) * ((min (1 / 20) MAX_FRAME_DT) * 1 / 2) ^ 2
      < 2 * ((Vec.distSq aW8.pos bW8.pos + simW8.softening * simW8.softening)
          * Real.sqrt (Vec.distSq aW8.pos bW8.pos + simW8.softening * simW8.softening)) := by
    rw [hdsq, hG8, hmA, hmB, hsoft, hmin,
      show (225 : ℝ) + 8 * 8 = 289 from by norm_num, hsqrt]
    norm_num
  obtain ⟨w1, w2, hbod, hw1p, hw2p, hw1m, hw2m, hw1r, hw2r, hw1al, hw2al⟩ :=
    step2_rest simW8 (1 / 20) 1 aW8 bW8 rfl rfl rfl rfl rfl rfl rfl
      (by norm_num [aW8, mkTest]) (by norm_num [bW8, mkTest])
  have hw1p' : w1.pos = ⟨225 / 4913, 0⟩ := by
    simp only [hw1p, hpa, hpb, hG8, hmA, hmB, hsoft, hmin]
    rw [show Vec.distSq (⟨0, 0⟩ : Vec) ⟨15, 0⟩ = 225 from by unfold Vec.distSq; norm_num,
      show (225 : ℝ) + 8 * 8 = 289 from by norm_num, hsqrt]
    ext <;> dsimp <;> norm_num
  have hw2p' : w2.pos = ⟨73470 / 4913, 0⟩ := by
    simp only [hw2p, hpa, hpb, hG8, hmA, hmB, hsoft, hmin]
    rw [show Vec.distSq (⟨0, 0⟩ : Vec) ⟨15, 0⟩ = 225 from by unfold Vec.distSq; norm_num,
      show (225 : ℝ) + 8 * 8 = 289 from by norm_num, hsqrt]
    ext <;> dsimp <;> norm_num
  have hw1r5 : w1.radius = 5 := hw1r.trans rfl
  have hw2r5 : w2.radius = 5 := hw2r.trans rfl
  have halW1 : w1.alive = true := hw1al.trans rfl
  have halW2 : w2.alive = true := hw2al.trans rfl
  have hfar : ¬ Vec.dist w1.pos w2.pos < (w1.radius + w2.radius) * 0.6 := by
    rw [hw1p', hw2p', hw1r5, hw2r5]
    rw [show Vec.dist (⟨225 / 4913, 0⟩ : Vec) ⟨73470 / 4913, 0⟩ = 73245 / 4913 from
      sqrt_eval (by norm_num) (by unfold Vec.distSq; norm_num)]
    norm_num
  rw [resolve_two w1 w2 halW1 halW2, if_neg hfar] at hbod
  have hlen : ((simW8.step (1 / 20) 1).bodies).length = 2 := by
    rw [hbod]
    rfl
  exact ⟨rfl, rfl, rfl, rfl, rfl, rfl, rfl, rfl, rfl,
    by norm_num [aW8, mkTest], by norm_num [bW8, mkTest], by norm_num [simW8],
    hposW, by norm_num, by norm_num, hsmallW, hlen,
    c8_amended simW8 (1 / 20) 1 aW8 bW8 rfl rfl rfl rfl rfl rfl rfl rfl rfl
      (by norm_num [aW8, mkTest]) (by norm_num [bW8, mkTest]) (by norm_num [simW8])
      hposW (by norm_num) (by norm_num) hsmallW hlen⟩

end

end Orbital
